import Mathlib

/-!
Verification of the sapp CLI pipeline driver (`sapp/cli.py`) and of the
spec-level contracts of the pipeline stages it wires together.

The embedding mirrors the Python source: click option values of type
`Optional[str]` become `Option String`, Python truthiness of such a value is
`strTruthy`, and `click.BadParameter` becomes an `Except` error.  Pipeline
stages whose implementation lives outside the driver file are modelled from
the specification; each such definition carries a doc comment saying so.
-/

/-- Database engine choices (`DBType.SQLITE`, `DBType.MEMORY` in `sapp.db`). -/
inductive DBType where
  | SQLITE
  | MEMORY
deriving DecidableEq

/-- Modelled from the spec: `DB.DEFAULT_DB_FILE`, the default database file
name from `sapp.db`, which is not under src/.  Its concrete value is
irrelevant to every claim; only that it is a fixed name matters. -/
def DEFAULT_DB_FILE : String := "sapp.db"

/-- Python truthiness of an `Optional[str]`: `None` and the empty string are
falsy, every other string is truthy. -/
def strTruthy : Option String → Bool
  | none => false
  | some s => !(s == "")

/-- `os.path.join` for two components, as used by `default_database`. -/
def pathJoin (a b : String) : String :=
  if b.startsWith "/" then b
  else if a == "" then b
  else if a.endsWith "/" then a ++ b
  else a ++ "/" ++ b

/-- The error raised by `default_database` (`click.BadParameter`). -/
inductive CliError where
  | BadParameter (msg : String)
deriving DecidableEq

/-- Embedding of `default_database` from `sapp/cli.py` lines 26-38: guess a
database name from the engine and the repository when no value was given. -/
def default_database (database_engine : DBType) (repository : Option String)
    (value : Option String) : Except CliError String :=
  if strTruthy value then Except.ok (value.getD "")
  else if database_engine == DBType.MEMORY then Except.ok ":memory:"
  else if strTruthy repository then
    Except.ok (pathJoin (repository.getD "") DEFAULT_DB_FILE)
  else Except.error (CliError.BadParameter "Could not guess a database location")

/-- Claim C8: `default_database` returns a truthy (non-empty) value unchanged;
otherwise, with the in-memory engine it returns ":memory:" regardless of the
repository; otherwise, with a repository set it joins the repository path with
the default database file name; otherwise it raises `BadParameter`. -/
theorem default_database_cases (database_engine : DBType)
    (repository value : Option String) :
    (∀ s, value = some s → s ≠ "" →
      default_database database_engine repository value = Except.ok s) ∧
    ((value = none ∨ value = some "") → database_engine = DBType.MEMORY →
      default_database database_engine repository value = Except.ok ":memory:") ∧
    ((value = none ∨ value = some "") → database_engine ≠ DBType.MEMORY →
      ∀ r, repository = some r → r ≠ "" →
        default_database database_engine repository value =
          Except.ok (pathJoin r DEFAULT_DB_FILE)) ∧
    ((value = none ∨ value = some "") → database_engine ≠ DBType.MEMORY →
      (repository = none ∨ repository = some "") →
      ∃ msg, default_database database_engine repository value =
        Except.error (CliError.BadParameter msg)) := by
  refine ⟨?_, ?_, ?_, ?_⟩
  · rintro s rfl hs
    simp [default_database, strTruthy, hs]
  · rintro (rfl | rfl) rfl <;> simp [default_database, strTruthy]
  · rintro (rfl | rfl) hmem r rfl hr <;>
      cases database_engine <;>
      simp_all [default_database, strTruthy]
  · rintro (rfl | rfl) hmem (rfl | rfl) <;>
      cases database_engine <;>
      simp_all [default_database, strTruthy]

/-- Witness for C8: concrete evaluations exercising the hypotheses of
`default_database_cases`. -/
theorem default_database_cases_witness :
    ((some "x.db" : Option String) = some "x.db" ∧ "x.db" ≠ "" ∧
      default_database DBType.SQLITE (some "/repo") (some "x.db") =
        Except.ok "x.db") ∧
    default_database DBType.SQLITE (some "/repo") none =
      Except.ok (pathJoin "/repo" DEFAULT_DB_FILE) :=
  ⟨⟨rfl, by decide,
    (default_database_cases DBType.SQLITE (some "/repo") (some "x.db")).1
      "x.db" rfl (by decide)⟩,
   (default_database_cases DBType.SQLITE (some "/repo") none).2.2.1
     (Or.inl rfl) (by decide) "/repo" rfl (by decide)⟩

/-- Embedding of `sapp.analysis_output.AnalysisOutput` as an opaque wrapper:
`AnalysisOutput.from_file p` is the output loaded from path `p`.  The loader
itself is not under src/ and none of the claims inspects its contents. -/
inductive AnalysisOutput where
  | from_file (path : String)
deriving DecidableEq

/-- The second slot of `input_files` in `analyze`: the `previous_input`
variable is `None`, still the raw path string, or (only when the
`elif previous_input` branch ran) a loaded `AnalysisOutput`. -/
inductive PrevInput where
  | absent
  | raw (path : String)
  | loaded (a : AnalysisOutput)
deriving DecidableEq

/-- Lift an optional raw path into the `previous_input` slot unchanged. -/
def optToPrev : Option String → PrevInput
  | none => PrevInput.absent
  | some p => PrevInput.raw p

/-- The `summary_blob` dict built by `analyze` (lines 127-144).  The
`compress` entry is the identity lambda, a function value carrying no data,
and is omitted.  `previous_issue_handles` is `none` when the key is absent. -/
structure SummaryBlob where
  run_kind : Option String
  repository : Option String
  branch : Option String
  commit_hash : Option String
  old_linemap_file : Option String
  store_unused_models : Bool
  job_id : Option String
  previous_issue_handles : Option AnalysisOutput
deriving DecidableEq

/-- The four pipeline stages instantiated by `analyze` (lines 150-158). -/
inductive PipelineStep where
  | parser
  | modelGenerator
  | trimTraceGraph
  | databaseSaver
deriving DecidableEq

/-- Everything `analyze` hands to `Pipeline.run`: the summary blob, the
`input_files` pair, and the ordered stage list. -/
structure AnalyzeResult where
  summary : SummaryBlob
  input_files : AnalysisOutput × PrevInput
  steps : List PipelineStep
deriving DecidableEq

/-- Embedding of the `analyze` command body (`sapp/cli.py` lines 113-160):
builds the summary blob, derives `job_id` from `differential_id` when absent,
loads the preferred previous-comparison source, and assembles the pipeline. -/
def analyze (repository run_kind branch commit_hash job_id : Option String)
    (differential_id : Option Int)
    (previous_issue_handles previous_input linemap : Option String)
    (store_unused_models : Bool) (input_file : String) : AnalyzeResult :=
  let job_id2 : Option String :=
    match job_id, differential_id with
    | none, some d => some ("user_input_" ++ toString d)
    | j, _ => j
  let summary_prev : Option AnalysisOutput :=
    if strTruthy previous_issue_handles then
      some (AnalysisOutput.from_file (previous_issue_handles.getD ""))
    else none
  let prev_slot : PrevInput :=
    if strTruthy previous_issue_handles then optToPrev previous_input
    else if strTruthy previous_input then
      PrevInput.loaded (AnalysisOutput.from_file (previous_input.getD ""))
    else optToPrev previous_input
  { summary :=
      { run_kind := run_kind
        repository := repository
        branch := branch
        commit_hash := commit_hash
        old_linemap_file := linemap
        store_unused_models := store_unused_models
        job_id := job_id2
        previous_issue_handles := summary_prev }
    input_files := (AnalysisOutput.from_file input_file, prev_slot)
    steps := [PipelineStep.parser, PipelineStep.modelGenerator,
              PipelineStep.trimTraceGraph, PipelineStep.databaseSaver] }

/-- Modelled from the spec: `Pipeline.run` (`sapp.pipeline`, not under src/)
executes its stages as a linear sequence in list order; the returned trace
records each stage in the order it ran. -/
def pipelineTrace (steps : List PipelineStep) : List PipelineStep :=
  steps.foldl (fun acc s => acc ++ [s]) []

/-- Claim C1, as stated, is false: with `--job-id` absent and
`--differential-id 5`, the summary's `job_id` is not the caller-supplied
`None` — `analyze` rewrites it to "user_input_5". -/
theorem analyze_metadata_counterexample :
    (analyze none none none none none (some 5) none none none false
        "taint-output.json").summary.job_id ≠ none ∧
      (analyze none none none none none (some 5) none none none false
        "taint-output.json").summary.job_id = some "user_input_5" := by
  constructor
  · decide
  · rfl

/-- Claim C1 (amended): the summary metadata stores the caller-supplied
branch, commit hash and store_unused_models setting unchanged; job_id is
stored unchanged except when it is absent and a differential id is present,
in which case it is rewritten to "user_input_" ++ the differential id;
the differential id itself is not stored as a summary field. -/
theorem summary_metadata_passthrough
    (repository run_kind branch commit_hash job_id : Option String)
    (differential_id : Option Int)
    (previous_issue_handles previous_input linemap : Option String)
    (store_unused_models : Bool) (input_file : String) :
    (analyze repository run_kind branch commit_hash job_id differential_id
        previous_issue_handles previous_input linemap store_unused_models
        input_file).summary.branch = branch ∧
    (analyze repository run_kind branch commit_hash job_id differential_id
        previous_issue_handles previous_input linemap store_unused_models
        input_file).summary.commit_hash = commit_hash ∧
    (analyze repository run_kind branch commit_hash job_id differential_id
        previous_issue_handles previous_input linemap store_unused_models
        input_file).summary.store_unused_models = store_unused_models ∧
    (analyze repository run_kind branch commit_hash job_id differential_id
        previous_issue_handles previous_input linemap store_unused_models
        input_file).summary.job_id =
      (match job_id, differential_id with
       | none, some d => some ("user_input_" ++ toString d)
       | j, _ => j) := by
  cases job_id <;> cases differential_id <;> exact ⟨rfl, rfl, rfl, rfl⟩

/-- Claim C2: the pipeline stages run in the fixed order fact parsing, model
assembly, trace trimming, persistence; the execution trace of the stage list
built by `analyze` is exactly that sequence, so no stage runs before a stage
listed earlier. -/
theorem analyze_stage_order
    (repository run_kind branch commit_hash job_id : Option String)
    (differential_id : Option Int)
    (previous_issue_handles previous_input linemap : Option String)
    (store_unused_models : Bool) (input_file : String) :
    pipelineTrace (analyze repository run_kind branch commit_hash job_id
        differential_id previous_issue_handles previous_input linemap
        store_unused_models input_file).steps =
      [PipelineStep.parser, PipelineStep.modelGenerator,
       PipelineStep.trimTraceGraph, PipelineStep.databaseSaver] := by
  rfl

/-- Claim C9: the summary job_id is "user_input_" ++ the decimal rendering of
differential_id exactly when job_id is absent and differential_id present;
otherwise the caller-supplied job_id (possibly none) is recorded unchanged. -/
theorem job_id_derivation
    (repository run_kind branch commit_hash job_id : Option String)
    (differential_id : Option Int)
    (previous_issue_handles previous_input linemap : Option String)
    (store_unused_models : Bool) (input_file : String) :
    (analyze repository run_kind branch commit_hash job_id differential_id
        previous_issue_handles previous_input linemap store_unused_models
        input_file).summary.job_id =
      (match job_id, differential_id with
       | none, some d => some ("user_input_" ++ toString d)
       | j, _ => j) := by
  cases job_id <;> cases differential_id <;> rfl

/-- Claim C10: whenever `--previous-issue-handles` is supplied (truthy), the
handles file is loaded into the summary under `previous_issue_handles`, and
`--previous-input` is never loaded: the pipeline's previous-input slot keeps
the original raw value (path string or absent). -/
theorem previous_handles_preferred
    (repository run_kind branch commit_hash job_id : Option String)
    (differential_id : Option Int)
    (previous_issue_handles previous_input linemap : Option String)
    (store_unused_models : Bool) (input_file : String)
    (h : strTruthy previous_issue_handles = true) :
    (analyze repository run_kind branch commit_hash job_id differential_id
        previous_issue_handles previous_input linemap store_unused_models
        input_file).summary.previous_issue_handles =
      some (AnalysisOutput.from_file (previous_issue_handles.getD "")) ∧
    (analyze repository run_kind branch commit_hash job_id differential_id
        previous_issue_handles previous_input linemap store_unused_models
        input_file).input_files.2 = optToPrev previous_input ∧
    ∀ a, (analyze repository run_kind branch commit_hash job_id
        differential_id previous_issue_handles previous_input linemap
        store_unused_models input_file).input_files.2 ≠ PrevInput.loaded a := by
  refine ⟨?_, ?_, ?_⟩
  · simp [analyze, h]
  · simp [analyze, h]
  · intro a
    simp only [analyze, h, if_true]
    cases previous_input <;> simp [optToPrev]

/-- Witness for C10 at a concrete invocation where both comparison flags are
supplied: the handles file wins and the previous input stays a raw path. -/
theorem previous_handles_preferred_witness :
    strTruthy (some "handles.txt") = true ∧
    (analyze none none none none none none (some "handles.txt")
        (some "prev.json") none false "taint-output.json").summary.previous_issue_handles =
      some (AnalysisOutput.from_file ((some "handles.txt").getD "")) ∧
    (analyze none none none none none none (some "handles.txt")
        (some "prev.json") none false
        "taint-output.json").input_files.2 = optToPrev (some "prev.json") ∧
    ∀ a, (analyze none none none none none none (some "handles.txt")
        (some "prev.json") none false
        "taint-output.json").input_files.2 ≠ PrevInput.loaded a :=
  ⟨by decide,
   previous_handles_preferred none none none none none none
     (some "handles.txt") (some "prev.json") none false "taint-output.json"
     (by decide)⟩

/-- The diff classification of one current issue. -/
inductive DiffResult where
  | new
  | existing
deriving DecidableEq

/-- Modelled from the spec: the Run Differ (not under src/) classifies a
current issue handle as new when it is absent from the prior handle set and
existing otherwise; with no prior comparison source every issue is new. -/
def diffClassify (prior : Option (List String)) (handle : String) : DiffResult :=
  match prior with
  | none => DiffResult.new
  | some p => if handle ∈ p then DiffResult.existing else DiffResult.new

/-- Claim C5: with neither `--previous-issue-handles` nor `--previous-input`
supplied, no prior comparison source reaches the pipeline — the summary has
no previous_issue_handles entry and the previous-input slot is empty — and
the Run Differ then classifies every current issue as new. -/
theorem no_previous_source_all_new
    (repository run_kind branch commit_hash job_id : Option String)
    (differential_id : Option Int) (linemap : Option String)
    (store_unused_models : Bool) (input_file : String) :
    (analyze repository run_kind branch commit_hash job_id differential_id
        none none linemap store_unused_models
        input_file).summary.previous_issue_handles = none ∧
    (analyze repository run_kind branch commit_hash job_id differential_id
        none none linemap store_unused_models
        input_file).input_files.2 = PrevInput.absent ∧
    ∀ handle : String, diffClassify none handle = DiffResult.new := by
  exact ⟨rfl, rfl, fun _ => rfl⟩

/-- A Model as the Trace Trimmer sees it: the identity of its Callable and the
number of its Conditions that are relevant to some Issue. -/
structure ModelInfo where
  callable : Nat
  relevantConditions : Nat
deriving DecidableEq

/-- Modelled from the spec: when store_unused_models is false, Models with no
Conditions relevant to any Issue are discarded after trimming (spec sections
4.2 and 4.4, implementation not under src/); when true they are retained. -/
def pruneModels (store_unused_models : Bool) (models : List ModelInfo) :
    List ModelInfo :=
  if store_unused_models then models
  else models.filter (fun m => m.relevantConditions != 0)

/-- Claim C6: when the `--store-unused-models` flag is absent, click passes
False for it, so the summary stores store_unused_models = false, and with
that value every Model with no Conditions relevant to any Issue is
discarded. -/
theorem store_unused_models_default
    (repository run_kind branch commit_hash job_id : Option String)
    (differential_id : Option Int)
    (previous_issue_handles previous_input linemap : Option String)
    (input_file : String) :
    (analyze repository run_kind branch commit_hash job_id differential_id
        previous_issue_handles previous_input linemap false
        input_file).summary.store_unused_models = false ∧
    ∀ (models : List ModelInfo) (m : ModelInfo), m.relevantConditions = 0 →
      m ∉ pruneModels false models := by
  refine ⟨rfl, ?_⟩
  intro models m hm hmem
  simp only [pruneModels, if_neg Bool.false_ne_true, List.mem_filter] at hmem
  rcases hmem with ⟨-, hrel⟩
  simp [hm] at hrel

/-- Witness for C6: a concrete Model with no relevant Conditions is discarded
from a concrete Model list. -/
theorem store_unused_models_default_witness :
    (ModelInfo.mk 7 0).relevantConditions = 0 ∧
    (analyze none none none none none none none none none false
        "taint-output.json").summary.store_unused_models = false ∧
    ModelInfo.mk 7 0 ∉ pruneModels false [ModelInfo.mk 3 2, ModelInfo.mk 7 0] :=
  ⟨rfl,
   (store_unused_models_default none none none none none none none none none
      "taint-output.json").1,
   (store_unused_models_default none none none none none none none none none
      "taint-output.json").2 [ModelInfo.mk 3 2, ModelInfo.mk 7 0]
     (ModelInfo.mk 7 0) rfl⟩

/-- One persisted entity of a Run, as the Persistence Sink writes them. -/
inductive Entity where
  | model (id : Nat)
  | traceFrame (id : Nat)
  | issue (id : Nat)
  | issueHandle (h : String)
  | sharedText (s : String)
deriving DecidableEq

/-- The visible state of the persistence sink: the committed entities. -/
structure SinkState where
  committed : List Entity
deriving DecidableEq

/-- Modelled from the spec: the transaction body of the Persistence Sink
(`sapp.database_saver`, not under src/).  Batches are written one by one into
the pending transaction buffer; `failAt = some i` simulates a write failure
at batch index `i`, which aborts the transaction (returns none). -/
def writeBatches (pending : List Entity) (i : Nat)
    (batches : List (List Entity)) (failAt : Option Nat) :
    Option (List Entity) :=
  match batches with
  | [] => some pending
  | b :: rest =>
      if failAt = some i then none
      else writeBatches (pending ++ b) (i + 1) rest failAt

/-- Modelled from the spec: writing a Run is one logical transaction — on
success the pending entities are committed in one step; on any failure the
transaction is rolled back and the sink state is unchanged. -/
def saveRun (db : SinkState) (batches : List (List Entity))
    (failAt : Option Nat) : SinkState :=
  match writeBatches [] 0 batches failAt with
  | some pending => SinkState.mk (db.committed ++ pending)
  | none => db

/-- A failure at any batch index inside the Run aborts the transaction. -/
theorem writeBatches_fail (batches : List (List Entity)) :
    ∀ (pending : List Entity) (j i : Nat), i < batches.length →
      writeBatches pending j batches (some (j + i)) = none := by
  induction batches with
  | nil =>
      intro pending j i h
      simp at h
  | cons b rest ih =>
      intro pending j i h
      cases i with
      | zero => simp [writeBatches]
      | succ k =>
          have hne : ¬ (some (j + (k + 1)) = some j) := by
            simp only [Option.some.injEq]
            omega
          rw [writeBatches, if_neg hne]
          have hrw : j + (k + 1) = (j + 1) + k := by omega
          rw [hrw]
          exact ih (pending ++ b) (j + 1) k (Nat.lt_of_succ_lt_succ h)

/-- Claim C7: persistence is atomic — if the sink fails at any batch of a
Run, the whole transaction is rolled back: the sink state is unchanged, so a
subsequent read shows none of the Run's entities that were not already
present. -/
theorem sink_atomic_rollback (db : SinkState) (batches : List (List Entity))
    (i : Nat) (hi : i < batches.length) (e : Entity)
    (he : e ∈ batches.flatten) (hnew : e ∉ db.committed) :
    saveRun db batches (some i) = db ∧
      e ∉ (saveRun db batches (some i)).committed := by
  have hfail : writeBatches [] 0 batches (some i) = none := by
    have := writeBatches_fail batches [] 0 i hi
    simpa using this
  have hsave : saveRun db batches (some i) = db := by
    rw [saveRun, hfail]
  exact ⟨hsave, by rw [hsave]; exact hnew⟩

/-- Witness for C7: a concrete two-batch Run failing at batch 0 leaves an
empty sink with none of the Run's entities visible. -/
theorem sink_atomic_rollback_witness :
    0 < ([[Entity.model 1, Entity.sharedText "p"], [Entity.issue 2]] :
        List (List Entity)).length ∧
    Entity.issue 2 ∈ ([[Entity.model 1, Entity.sharedText "p"],
        [Entity.issue 2]] : List (List Entity)).flatten ∧
    Entity.issue 2 ∉ (SinkState.mk []).committed ∧
    saveRun (SinkState.mk []) [[Entity.model 1, Entity.sharedText "p"],
        [Entity.issue 2]] (some 0) = SinkState.mk [] ∧
    Entity.issue 2 ∉ (saveRun (SinkState.mk [])
        [[Entity.model 1, Entity.sharedText "p"], [Entity.issue 2]]
        (some 0)).committed := by
  refine ⟨by decide, by decide, by decide, ?_⟩
  exact sink_atomic_rollback (SinkState.mk [])
    [[Entity.model 1, Entity.sharedText "p"], [Entity.issue 2]] 0
    (by decide) (Entity.issue 2) (by decide) (by decide)

/-- An Issue's trace graph: its TraceFrames as directed caller-to-callee
edges over Callable ids, plus the source and sink Callables of the Issue. -/
structure TraceGraph where
  frames : Set (Nat × Nat)
  sources : Set Nat
  sinks : Set Nat

/-- One taint-propagation step: a TraceFrame edge of the graph. -/
def stepRel (G : TraceGraph) (a b : Nat) : Prop := (a, b) ∈ G.frames

/-- A node is forward-reachable when some source reaches it along frames. -/
def reachFwd (G : TraceGraph) (v : Nat) : Prop :=
  ∃ s, s ∈ G.sources ∧ Relation.ReflTransGen (stepRel G) s v

/-- A node is backward-reachable when it reaches some sink along frames. -/
def reachBwd (G : TraceGraph) (v : Nat) : Prop :=
  ∃ t, t ∈ G.sinks ∧ Relation.ReflTransGen (stepRel G) v t

/-- Modelled from the spec: `TrimTraceGraph` (`sapp.trim_trace_graph`, not
under src/) is a two-pass reachability computation — a frame is retained iff
its caller is forward-reachable from a source and its callee backward-reaches
a sink, i.e. iff the frame lies on a complete source-to-sink path. -/
def trimGraph (G : TraceGraph) : TraceGraph where
  frames := {e | e ∈ G.frames ∧ reachFwd G e.1 ∧ reachBwd G e.2}
  sources := G.sources
  sinks := G.sinks

/-- A path of the original graph survives trimming whenever its start is
forward-reachable and its end backward-reaches a sink. -/
theorem reach_path_in_trim (G : TraceGraph) {u v : Nat}
    (hp : Relation.ReflTransGen (stepRel G) u v) (hf : reachFwd G u) :
    reachBwd G v → Relation.ReflTransGen (stepRel (trimGraph G)) u v := by
  induction hp with
  | refl => intro _; exact Relation.ReflTransGen.refl
  | @tail b c hp' e ih =>
      intro hb
      obtain ⟨t, ht, htc⟩ := hb
      have hbB : reachBwd G b := ⟨t, ht, Relation.ReflTransGen.head e htc⟩
      have hub : Relation.ReflTransGen (stepRel (trimGraph G)) u b := ih hbB
      have hfb : reachFwd G b := by
        obtain ⟨s, hs, hsu⟩ := hf
        exact ⟨s, hs, hsu.trans hp'⟩
      have hedge : stepRel (trimGraph G) b c := ⟨e, hfb, t, ht, htc⟩
      exact hub.tail hedge

/-- Forward reachability is preserved by trimming for nodes on a complete
source-to-sink path. -/
theorem reachFwd_trim (G : TraceGraph) {v : Nat} (hf : reachFwd G v)
    (hb : reachBwd G v) : reachFwd (trimGraph G) v := by
  obtain ⟨s, hs, hsv⟩ := hf
  exact ⟨s, hs, reach_path_in_trim G hsv ⟨s, hs, Relation.ReflTransGen.refl⟩ hb⟩

/-- Backward reachability is preserved by trimming for nodes on a complete
source-to-sink path. -/
theorem reachBwd_trim (G : TraceGraph) {v : Nat} (hf : reachFwd G v)
    (hb : reachBwd G v) : reachBwd (trimGraph G) v := by
  obtain ⟨t, ht, hvt⟩ := hb
  exact ⟨t, ht, reach_path_in_trim G hvt hf ⟨t, ht, Relation.ReflTransGen.refl⟩⟩

/-- Claim C3: trimming is idempotent — applying the trace trimmer twice to
any Issue's trace graph yields exactly the graph (in particular, the same
TraceFrame set) obtained by applying it once. -/
theorem trim_idempotent (G : TraceGraph) : trimGraph (trimGraph G) = trimGraph G := by
  have hframes : (trimGraph (trimGraph G)).frames = (trimGraph G).frames := by
    apply Set.ext
    intro e
    constructor
    · rintro ⟨he, -, -⟩
      exact he
    · rintro ⟨heG, hf, hb⟩
      have hedge : stepRel G e.1 e.2 := heG
      have hb1 : reachBwd G e.1 := by
        obtain ⟨t, ht, htc⟩ := hb
        exact ⟨t, ht, Relation.ReflTransGen.head hedge htc⟩
      have hf2 : reachFwd G e.2 := by
        obtain ⟨s, hs, hsu⟩ := hf
        exact ⟨s, hs, hsu.tail hedge⟩
      exact ⟨⟨heG, hf, hb⟩, reachFwd_trim G hf hb1, reachBwd_trim G hf2 hb⟩
  show TraceGraph.mk (trimGraph (trimGraph G)).frames G.sources G.sinks =
    TraceGraph.mk (trimGraph G).frames G.sources G.sinks
  rw [hframes]

/-- The content of an Issue that is relevant to its handle: the Callable
identity, the (source kind, sink kind) pairs it connects (as interned ids),
and the coarse location bucket. -/
structure IssueContent where
  callable : Nat
  kindPairs : List (Nat × Nat)
  bucket : Nat
deriving DecidableEq

/-- The sorted rendering of the kind pairs: each pair is injectively encoded
as a natural number and the encodings are sorted, so any arrival order of the
pairs yields the same list. -/
def sortedKinds (l : List (Nat × Nat)) : List Nat :=
  List.insertionSort (fun a b => a ≤ b) (l.map fun p => Nat.pair p.1 p.2)

/-- Modelled from the spec: the Stable Identity Generator (not under src/)
computes each IssueHandle as a deterministic function of only the Callable
identity, the sorted set of (source kind, sink kind) pairs, and the coarse
location bucket; it reads no other Run state, so fact arrival order, thread
scheduling and unrelated Models cannot influence it. -/
def issueHandle (i : IssueContent) : String :=
  toString i.callable ++ "|" ++ toString (sortedKinds i.kindPairs) ++ "|" ++
    toString i.bucket

/-- Claim C4: issue-handle generation is deterministic across runs — two
Issues with the same Callable identity, the same (source kind, sink kind)
pairs up to arrival order, and the same coarse location bucket receive
byte-identical handles; the handle function takes no other Run state, so
unrelated Models in either run cannot change it. -/
theorem issue_handle_deterministic (i j : IssueContent)
    (hc : i.callable = j.callable)
    (hk : i.kindPairs.Perm j.kindPairs)
    (hb : i.bucket = j.bucket) :
    issueHandle i = issueHandle j := by
  have hperm : List.Perm (sortedKinds i.kindPairs) (sortedKinds j.kindPairs) :=
    (List.perm_insertionSort _ _).trans
      ((hk.map _).trans (List.perm_insertionSort _ _).symm)
  have hs1 : List.Sorted (fun a b : Nat => a ≤ b) (sortedKinds i.kindPairs) :=
    List.sorted_insertionSort _ _
  have hs2 : List.Sorted (fun a b : Nat => a ≤ b) (sortedKinds j.kindPairs) :=
    List.sorted_insertionSort _ _
  have hs : sortedKinds i.kindPairs = sortedKinds j.kindPairs :=
    List.eq_of_perm_of_sorted hperm hs1 hs2
  rw [issueHandle, issueHandle, hc, hs, hb]

/-- Witness for C4: two concrete Issues whose kind pairs arrived in opposite
orders receive the same handle. -/
theorem issue_handle_deterministic_witness :
    (IssueContent.mk 1 [(2, 3), (4, 5)] 7).callable =
      (IssueContent.mk 1 [(4, 5), (2, 3)] 7).callable ∧
    (IssueContent.mk 1 [(2, 3), (4, 5)] 7).kindPairs.Perm
      (IssueContent.mk 1 [(4, 5), (2, 3)] 7).kindPairs ∧
    (IssueContent.mk 1 [(2, 3), (4, 5)] 7).bucket =
      (IssueContent.mk 1 [(4, 5), (2, 3)] 7).bucket ∧
    issueHandle (IssueContent.mk 1 [(2, 3), (4, 5)] 7) =
      issueHandle (IssueContent.mk 1 [(4, 5), (2, 3)] 7) :=
  ⟨rfl, by decide, rfl,
   issue_handle_deterministic (IssueContent.mk 1 [(2, 3), (4, 5)] 7)
     (IssueContent.mk 1 [(4, 5), (2, 3)] 7) rfl (by decide) rfl⟩
